import Mathlib

/-!
Verification of the cart / checkout / product-client core of the
`yamaaraw-ecom-shop` storefront, shallowly embedded in Lean.

JavaScript (double-precision) numbers are modelled by `JSNum`: a rational
for every finite value, plus the special values `nan`, `posInf`, `negInf`.
Real IEEE-754 rounding is idealised to exact rational arithmetic; the
special-value propagation rules of `+`, `*`, `<`, `Math.max` and the
`isNaN` guard are modelled exactly, since the code's defensive numeric
coercion (`safeNumber`) is all about them.
-/

set_option autoImplicit false
set_option maxRecDepth 8192

namespace Ecom

/-- A JavaScript number: finite (idealised as an exact rational), `NaN`,
or one of the two infinities. -/
inductive JSNum where
  | finite (q : ℚ)
  | nan
  | posInf
  | negInf
  deriving DecidableEq, Repr

namespace JSNum

/-- A JS number is finite when it is neither `NaN` nor an infinity. -/
def isFinite : JSNum → Bool
  | finite _ => true
  | _ => false

/-- JS addition: `NaN` is absorbing, `Infinity + (-Infinity)` is `NaN`,
an infinity absorbs any finite summand. -/
def jadd : JSNum → JSNum → JSNum
  | nan, _ => nan
  | _, nan => nan
  | posInf, negInf => nan
  | negInf, posInf => nan
  | posInf, _ => posInf
  | _, posInf => posInf
  | negInf, _ => negInf
  | _, negInf => negInf
  | finite a, finite b => finite (a + b)

/-- JS multiplication: `NaN` is absorbing, `Infinity * 0` is `NaN`,
an infinity times a nonzero finite value is a signed infinity. -/
def jmul : JSNum → JSNum → JSNum
  | nan, _ => nan
  | _, nan => nan
  | posInf, posInf => posInf
  | posInf, negInf => negInf
  | negInf, posInf => negInf
  | negInf, negInf => posInf
  | posInf, finite b => if 0 < b then posInf else if b < 0 then negInf else nan
  | finite a, posInf => if 0 < a then posInf else if a < 0 then negInf else nan
  | negInf, finite b => if 0 < b then negInf else if b < 0 then posInf else nan
  | finite a, negInf => if 0 < a then negInf else if a < 0 then posInf else nan
  | finite a, finite b => finite (a * b)

instance : Add JSNum := ⟨jadd⟩
instance : Mul JSNum := ⟨jmul⟩

/-- JS strict `<` on numbers: any comparison with `NaN` is false. -/
def jlt : JSNum → JSNum → Bool
  | nan, _ => false
  | _, nan => false
  | negInf, negInf => false
  | negInf, _ => true
  | _, negInf => false
  | posInf, _ => false
  | _, posInf => true
  | finite a, finite b => a < b

/-- JS `<=` on numbers: any comparison with `NaN` is false. -/
def jle : JSNum → JSNum → Bool
  | nan, _ => false
  | _, nan => false
  | negInf, _ => true
  | _, negInf => false
  | _, posInf => true
  | posInf, _ => false
  | finite a, finite b => a ≤ b

/-- JS `Math.max` on two numbers: `NaN` if either argument is `NaN`,
otherwise the larger argument. -/
def jmax (a b : JSNum) : JSNum :=
  if a = nan ∨ b = nan then nan
  else if jlt a b then b else a

/-- JS number truthiness: `0`, `-0` and `NaN` are falsy, every other
number is truthy. -/
def jtruthyNum : JSNum → Bool
  | finite q => q ≠ 0
  | nan => false
  | _ => true

@[simp] theorem finite_add_finite (a b : ℚ) :
    finite a + finite b = finite (a + b) := rfl

@[simp] theorem finite_mul_finite (a b : ℚ) :
    finite a * finite b = finite (a * b) := rfl

@[simp] theorem jlt_finite_finite (a b : ℚ) :
    jlt (finite a) (finite b) = decide (a < b) := rfl

@[simp] theorem jle_finite_finite (a b : ℚ) :
    jle (finite a) (finite b) = decide (a ≤ b) := rfl

@[simp] theorem jmax_finite_finite (a b : ℚ) :
    jmax (finite a) (finite b) = if a < b then finite b else finite a := by
  simp [jmax, jlt]

@[simp] theorem jtruthyNum_finite (a : ℚ) :
    jtruthyNum (finite a) = decide ¬(a = 0) := by
  simp [jtruthyNum]

@[simp] theorem isFinite_finite (a : ℚ) : isFinite (finite a) = true := rfl

end JSNum

/-- A JavaScript value as it may reach the numeric normalizer
`safeNumber` (whose parameter is typed `any` in the source). Strings
carry their text; `objLike v` stands for any non-null object, carrying
the JS number `v` that the `ToNumber` coercion (`Number(value)`) would
produce for it (`NaN` for a plain object, `0` for `[]`, ...), since that
coercion is a language builtin, not repository code. -/
inductive JSVal where
  | num (n : JSNum)
  | str (s : String)
  | bool (b : Bool)
  | null
  | undef
  | objLike (toNum : JSNum)
  deriving DecidableEq, Repr

/-- Numeric value of a list of decimal digit characters. -/
def digitsToNat (ds : List Char) : ℕ :=
  ds.foldl (fun a c => a * 10 + (c.toNat - 48)) 0

/-- Model of the JavaScript `parseFloat` builtin (a language builtin,
not repository code), restricted to the string forms exercised here:
optional leading whitespace, an optional sign, then either the literal
`Infinity` or a decimal literal `digits[.digits]` / `.digits`, the
longest such prefix being taken and any trailing characters ignored.
Exponent notation is outside the modelled fragment. Strings with no
parsable prefix map to `NaN`. -/
def jsParseFloat (s : String) : JSNum :=
  let cs := s.toList.dropWhile Char.isWhitespace
  let signed : Bool × List Char :=
    match cs with
    | '-' :: t => (true, t)
    | '+' :: t => (false, t)
    | _ => (false, cs)
  let neg := signed.1
  let body := signed.2
  if body.take 8 = "Infinity".toList then
    if neg then JSNum.negInf else JSNum.posInf
  else
    let ip := body.takeWhile Char.isDigit
    let rest := body.dropWhile Char.isDigit
    match rest with
    | '.' :: rest2 =>
      let fp := rest2.takeWhile Char.isDigit
      if ip = [] ∧ fp = [] then JSNum.nan
      else
        let mag : ℚ := (digitsToNat ip : ℚ) + (digitsToNat fp : ℚ) / (10 ^ fp.length : ℚ)
        JSNum.finite (if neg then -mag else mag)
    | _ =>
      if ip = [] then JSNum.nan
      else
        let mag : ℚ := (digitsToNat ip : ℚ)
        JSNum.finite (if neg then -mag else mag)

/-- The `ToNumber` coercion applied by `Number(value)` to the non-string,
non-null, non-undefined values: a number is itself, booleans map to 1/0,
an object carries its coercion. (`null`/`undefined` never reach this
point in `safeNumber`.) -/
def jsToNumber : JSVal → JSNum
  | JSVal.num n => n
  | JSVal.str _ => JSNum.nan
  | JSVal.bool b => JSNum.finite (if b then 1 else 0)
  | JSVal.null => JSNum.finite 0
  | JSVal.undef => JSNum.nan
  | JSVal.objLike t => t

/-- `safeNumber` from `src/lib/cart.ts`:
`null`/`undefined` map to 0; a string goes through `parseFloat`, any
other value through `Number`; a `NaN` result is replaced by 0. -/
def safeNumber : JSVal → JSNum
  | JSVal.null => JSNum.finite 0
  | JSVal.undef => JSNum.finite 0
  | v =>
    let num := match v with
      | JSVal.str s => jsParseFloat s
      | w => jsToNumber w
    if num = JSNum.nan then JSNum.finite 0 else num

example : safeNumber (JSVal.str "12.5") = JSNum.finite (25 / 2) := by with_unfolding_all decide
example : safeNumber JSVal.null = JSNum.finite 0 := by with_unfolding_all decide
example : safeNumber (JSVal.num JSNum.nan) = JSNum.finite 0 := by with_unfolding_all decide
example : safeNumber (JSVal.num (JSNum.finite (-3))) = JSNum.finite (-3) := by with_unfolding_all decide
example : safeNumber (JSVal.str "Infinity") = JSNum.posInf := by with_unfolding_all decide
example : safeNumber (JSVal.str "abc") = JSNum.finite 0 := by with_unfolding_all decide

/-- A cart line item, restricted to the three numeric fields the verified
functions read (`price`, `quantity`, `total`). Although the source types
them `number`, they arrive from the backend as untrusted JSON and the code
runs each through `safeNumber`, so they are modelled as arbitrary JS
values. The display-snapshot fields of `CartItem` (name, image, product
block) are not read by any verified claim and are omitted. -/
structure CItem where
  price : JSVal
  quantity : JSVal
  total : JSVal
  deriving DecidableEq, Repr

/-- JS `a || b` restricted to numbers: `a` unless `a` is falsy
(`0`, `-0` or `NaN`), else `b`. -/
def jsOrNum (a b : JSNum) : JSNum :=
  if JSNum.jtruthyNum a then a else b

/-- The per-item normalization inside `getCart`'s `cartItems.map`
(src/lib/cart.ts lines 67-76): price through `safeNumber`, quantity
through `Math.max(1, safeNumber(...))`, and
`total: safeNumber(item.total) || safePrice * safeQuantity`. -/
def normalizeCartItem (item : CItem) : CItem :=
  let safePrice := safeNumber item.price
  let safeQuantity := JSNum.jmax (JSNum.finite 1) (safeNumber item.quantity)
  let calculatedTotal := safePrice * safeQuantity
  { price := JSVal.num safePrice
    quantity := JSVal.num safeQuantity
    total := JSVal.num (jsOrNum (safeNumber item.total) calculatedTotal) }

/-- `getCartItemsCount`: the number of line items, not the sum of
quantities. (The source's `Array.isArray` guard cannot fail on a
well-typed list argument.) -/
def getCartItemsCount (cartItems : List CItem) : ℕ :=
  cartItems.length

/-- One item's contribution inside `getCartTotal`'s reduce:
`safeNumber(item.total)` unless that is strictly equal to `0`, in which
case `safeNumber(price) * safeNumber(quantity)`. -/
def cartItemTotal (item : CItem) : JSNum :=
  let itemTotal := safeNumber item.total
  if itemTotal = JSNum.finite 0 then
    safeNumber item.price * safeNumber item.quantity
  else itemTotal

/-- `getCartTotal`: left fold of the per-item totals starting from 0. -/
def getCartTotal (cartItems : List CItem) : JSNum :=
  cartItems.foldl (fun total item => total + cartItemTotal item) (JSNum.finite 0)

/-- `getCartSubtotal` is `getCartTotal`. -/
def getCartSubtotal (cartItems : List CItem) : JSNum :=
  getCartTotal cartItems

/-- The record returned by `getCartSummary`. -/
structure CartSummary where
  itemCount : ℕ
  subtotal : JSNum
  tax : JSNum
  shipping : JSNum
  total : JSNum
  deriving DecidableEq, Repr

/-- `getCartSummary`: 8% tax, a flat 500 shipping fee waived when the
subtotal strictly exceeds 50000, and every output clamped through
`Math.max(0, _)`. The source's `0.08` double literal is idealised to the
exact rational `8/100`. -/
def getCartSummary (cartItems : List CItem) : CartSummary :=
  let subtotal := getCartSubtotal cartItems
  let itemCount := getCartItemsCount cartItems
  let taxRate : JSNum := JSNum.finite (8 / 100)
  let tax := subtotal * taxRate
  let shippingThreshold : JSNum := JSNum.finite 50000
  let shippingFee : JSNum := JSNum.finite 500
  let shipping := if JSNum.jlt shippingThreshold subtotal then JSNum.finite 0 else shippingFee
  let total := subtotal + tax + shipping
  { itemCount := itemCount
    subtotal := JSNum.jmax (JSNum.finite 0) subtotal
    tax := JSNum.jmax (JSNum.finite 0) tax
    shipping := JSNum.jmax (JSNum.finite 0) shipping
    total := JSNum.jmax (JSNum.finite 0) total }

/-- The JS test `!token` on the value returned by `getAuthToken()`
(a string or `null`): true for `null` and for the empty string. -/
def jsStrFalsy : Option String → Bool
  | none => true
  | some s => s = ""

/-- The parsed `CartResponse` envelope, as far as the cart operations
read it: the `success` flag and the optional `data` payload. In JS an
array value for `data` is truthy even when empty; an absent or `null`
`data` is falsy, which `Option` captures. -/
structure CartRespM where
  success : Bool
  data : Option (List CItem)
  deriving Repr

/-- `getCart`, with the two effectful inputs made explicit: the token
read from the session store and the outcome of the single `fetch` +
`json()` step (`Except.error` standing for any thrown transport/parse
error, which the source catches and turns into `[]`). Returns the
resolved list and whether a network request was made. -/
def getCart (token : Option String) (fetched : Except Unit CartRespM) :
    List CItem × Bool :=
  if jsStrFalsy token then ([], false)
  else
    match fetched with
    | Except.error _ => ([], true)
    | Except.ok resp =>
      if resp.success then
        match resp.data with
        | some items => (items.map normalizeCartItem, true)
        | none => ([], true)
      else ([], true)

/-- `updateCartQuantity`: with no token it throws inside its own `try`
and the `catch` returns `false`, so no request is made; otherwise it
returns the response's `success` flag, or `false` if the fetch threw. -/
def updateCartQuantity (token : Option String) (fetched : Except Unit CartRespM) :
    Bool × Bool :=
  if jsStrFalsy token then (false, false)
  else
    match fetched with
    | Except.error _ => (false, true)
    | Except.ok resp => (resp.success, true)

/-- `removeFromCart`: same shape as `updateCartQuantity`. -/
def removeFromCart (token : Option String) (fetched : Except Unit CartRespM) :
    Bool × Bool :=
  if jsStrFalsy token then (false, false)
  else
    match fetched with
    | Except.error _ => (false, true)
    | Except.ok resp => (resp.success, true)

/-- The outcome of `clearCart`'s fetch: the HTTP `response.ok` flag and
the (fallible) body parse. -/
structure ClearFetchM where
  httpOk : Bool
  parsed : Except Unit CartRespM

/-- `clearCart`: no token → throw, caught → `(false, no request)`;
non-ok HTTP status, parse failure, or `success:false` body all throw and
are caught into `false`; only a parsed `success:true` body yields
`true`. -/
def clearCart (token : Option String) (fetched : Except Unit ClearFetchM) :
    Bool × Bool :=
  if jsStrFalsy token then (false, false)
  else
    match fetched with
    | Except.error _ => (false, true)
    | Except.ok r =>
      if !r.httpOk then (false, true)
      else
        match r.parsed with
        | Except.error _ => (false, true)
        | Except.ok d => if d.success then (true, true) else (false, true)

/-- Outcome of one attempt of the underlying cart-clear operation, as
observed by `clearCartAfterCheckout`: the awaited call resolved `true`,
resolved `false`, or threw. -/
inductive ClearOutcome where
  | success
  | failure
  | threw
  deriving DecidableEq, Repr

/-- The `while (attempts < maxAttempts)` loop of `clearCartAfterCheckout`
(src/lib/cart.ts lines 257-278), over an oracle giving the outcome of
each attempt. `attempts` is the loop counter, `remaining` is
`maxAttempts - attempts`. A successful attempt returns `ok true` at
once; a `false` result or a caught error (the latter recorded as
`lastError`, which does not influence the result) both fall through to
the next iteration; after the loop the function throws `lastError` (or a
fresh error), modelled as `Except.error`. -/
def clearLoop (oracle : ℕ → ClearOutcome) : ℕ → ℕ → Except Unit Bool × ℕ
  | attempts, 0 => (Except.error (), attempts)
  | attempts, remaining + 1 =>
    match oracle attempts with
    | ClearOutcome.success => (Except.ok true, attempts + 1)
    | ClearOutcome.failure => clearLoop oracle (attempts + 1) remaining
    | ClearOutcome.threw => clearLoop oracle (attempts + 1) remaining

/-- `clearCartAfterCheckout`: the retry loop with `maxAttempts = 3`
wrapped in the outermost `try/catch` that converts any escaping error
into `false`. Returns the resolved boolean and the number of attempts
made. -/
def clearCartAfterCheckout (oracle : ℕ → ClearOutcome) : Bool × ℕ :=
  let r := clearLoop oracle 0 3
  (match r.1 with
   | Except.ok b => b
   | Except.error _ => false,
   r.2)

example :
    getCartSummary [⟨JSVal.num (JSNum.finite 1000), JSVal.num (JSNum.finite 2), JSVal.num (JSNum.finite 0)⟩] =
      ⟨1, JSNum.finite 2000, JSNum.finite 160, JSNum.finite 500, JSNum.finite 2660⟩ := by
  simp [getCartSummary, getCartSubtotal, getCartTotal, getCartItemsCount, cartItemTotal,
    safeNumber, jsToNumber, JSNum.jmax, JSNum.jlt]
  norm_num
  simp

example : clearCartAfterCheckout (fun _ => ClearOutcome.threw) = (false, 3) := by
  rfl

example :
    clearCartAfterCheckout
      (fun n => if n < 2 then ClearOutcome.failure else ClearOutcome.success) = (true, 3) := by
  rfl

/-- A JSON value as produced by `response.json()` / `request.json()`.
Numbers are idealised to exact rationals. -/
inductive Json where
  | jnull
  | jbool (b : Bool)
  | jnum (q : ℚ)
  | jstr (s : String)
  | jarr (elems : List Json)
  | jobj (fields : List (String × Json))

/-- Own-property lookup on an object's field list (first match). -/
def lookupField : List (String × Json) → String → Option Json
  | [], _ => none
  | (k, v) :: rest, key => if k = key then some v else lookupField rest key

/-- JS property access `v.key`: a field of an object, `undefined`
(`none`) for a missing field or a non-object receiver. (Access on `null`
throws instead; callers model that case separately.) -/
def jget : Json → String → Option Json
  | Json.jobj fields, key => lookupField fields key
  | _, _ => none

/-- JS truthiness of a JSON value: `null`, `false`, `0` and `""` are
falsy; every array and object (even empty) is truthy. -/
def jtruthy : Json → Bool
  | Json.jnull => false
  | Json.jbool b => b
  | Json.jnum q => q ≠ 0
  | Json.jstr s => s ≠ ""
  | Json.jarr _ => true
  | Json.jobj _ => true

/-- Truthiness of a possibly-`undefined` value. -/
def optTruthy : Option Json → Bool
  | none => false
  | some v => jtruthy v

/-- `Array.isArray`. -/
def isJArr : Json → Bool
  | Json.jarr _ => true
  | _ => false

/-- The 401 body of the order proxy. -/
def authRequiredBody : Json :=
  Json.jobj [("success", Json.jbool false), ("message", Json.jstr "Authentication required")]

/-- The 500 body of the order proxy. -/
def serverErrorBody : Json :=
  Json.jobj [("success", Json.jbool false), ("message", Json.jstr "Internal server error")]

/-- The `GET` handler of `src/app/api/orders/route.ts`. Inputs: the
value of `request.headers.get("authorization")` (`none` when the header
is absent) and the backend as a function from the forwarded header to
either a status/body pair or a thrown transport error. Output: response
status, response body, and whether the backend was contacted. The guard
is the JS test `!authHeader`, which also fires on an empty header
value. -/
def ordersGET (authHeader : Option String)
    (backend : String → Except Unit (ℕ × Json)) : ℕ × Json × Bool :=
  match authHeader with
  | none => (401, authRequiredBody, false)
  | some h =>
    if h = "" then (401, authRequiredBody, false)
    else
      match backend h with
      | Except.ok (st, body) => (st, body, true)
      | Except.error _ => (500, serverErrorBody, true)

/-- The source fallback `data.data || data || []` in
`ProductApi.getProducts` (src/lib/api.ts line 134): first truthy operand,
else `[]`. -/
def orFallback (d : Json) : Json :=
  match jget d "data" with
  | some v => if jtruthy v then v else (if jtruthy d then d else Json.jarr [])
  | none => if jtruthy d then d else Json.jarr []

/-- The spec's wording of that fallback, `data.data ?? data ?? []`
(nullish coalescing: only `null`/`undefined` fall through), stated from
the spec for comparison with the source's `||` chain. -/
def specNullishFallback (d : Json) : Json :=
  let second : Json :=
    match d with
    | Json.jnull => Json.jarr []
    | _ => d
  match jget d "data" with
  | some Json.jnull => second
  | some v => v
  | none => second

/-- The response normalization of `ProductApi.getProducts`
(src/lib/api.ts lines 124-134): a bare array is returned as-is; then
`data.success && data.data` selects the envelope branch, wrapping a
non-array payload into a one-element array; otherwise the
`data.data || data || []` fallback. Property access on a `null` response
throws a `TypeError`, which the method's `catch` rethrows
(`Except.error`). -/
def getProductsNormalize : Json → Except Unit Json
  | Json.jarr xs => Except.ok (Json.jarr xs)
  | Json.jnull => Except.error ()
  | d =>
    if optTruthy (jget d "success") && optTruthy (jget d "data") then
      Except.ok
        (match jget d "data" with
         | some (Json.jarr xs) => Json.jarr xs
         | some v => Json.jarr [v]
         | none => Json.jarr [])
    else Except.ok (orFallback d)

/-- The checkout page's shipping form state. -/
structure ShippingInfo where
  firstName : String
  lastName : String
  email : String
  phone : String
  address : String
  city : String
  province : String
  zipCode : String
  deriving DecidableEq, Repr

/-- The whitespace class of JS `String.prototype.trim` and regex `\s`,
restricted to the ASCII whitespace characters (the Unicode space
characters are outside the modelled fragment). -/
def isJsWsChar (c : Char) : Bool :=
  c == ' ' || c == '\t' || c == '\n' || c == '\r' || c == '\x0b' || c == '\x0c'

/-- The JS test `!field.trim()`: true exactly when the string has no
non-whitespace character. -/
def isBlank (s : String) : Bool :=
  s.toList.all isJsWsChar

/-- The regex character class `[^\s@]`. -/
def emailAtomChar (c : Char) : Bool :=
  !(isJsWsChar c) && c != '@'

/-- Split a character list on a separator character (used to count and
delimit the `@`-free segments of a candidate email). -/
def splitOnChar (sep : Char) : List Char → List (List Char)
  | [] => [[]]
  | c :: cs =>
    let r := splitOnChar sep cs
    if c = sep then [] :: r
    else
      match r with
      | [] => [[c]]
      | seg :: rest => (c :: seg) :: rest

/-- Whether a `'.'` occurs at some position that is neither the first
nor the last of the list (`dotNotLast` scans all but the head). -/
def dotNotLast : List Char → Bool
  | [] => false
  | [_] => false
  | c :: cs => c == '.' || dotNotLast cs

/-- Whether the list has a `'.'` at an inner position. -/
def internalDot : List Char → Bool
  | [] => false
  | _ :: t => dotNotLast t

/-- The checkout email test, regex `^[^\s@]+@[^\s@]+\.[^\s@]+$`:
exactly one `@`, a nonempty `@`-free whitespace-free local part, and a
domain part (whitespace-free, `@`-free by the split) containing a dot
with nonempty text on both sides — the class `[^\s@]` itself admits
dots, so only some inner dot is required. -/
def emailRegexTest (s : String) : Bool :=
  match splitOnChar '@' s.toList with
  | [a, m] => !a.isEmpty && a.all emailAtomChar && m.all emailAtomChar && internalDot m
  | _ => false

/-- The checkout phone test, regex `^[0-9]{11}$`: exactly 11 ASCII
digits. -/
def phoneRegexTest (s : String) : Bool :=
  s.toList.length == 11 && s.toList.all (fun c => '0' ≤ c && c ≤ '9')

/-- `phone.startsWith("09")`. -/
def phoneStarts09 (s : String) : Bool :=
  match s.toList with
  | '0' :: '9' :: _ => true
  | _ => false

/-- `validateForm` of the checkout page (src/unnamed/part_001 lines
201-229): the eight required fields must be non-blank, in source order,
then the email regex, then the phone regex, then the `09` check. -/
def validateForm (si : ShippingInfo) : Bool :=
  if isBlank si.firstName then false
  else if isBlank si.lastName then false
  else if isBlank si.email then false
  else if isBlank si.phone then false
  else if isBlank si.address then false
  else if isBlank si.city then false
  else if isBlank si.province then false
  else if isBlank si.zipCode then false
  else if !emailRegexTest si.email then false
  else if !phoneRegexTest si.phone then false
  else if !phoneStarts09 si.phone then false
  else true

/-- `handleSubmit`'s early return: whether the order POST is reached.
The payload assembly and network call that follow a successful
validation are outside the verified claims. -/
def handleSubmitSends (si : ShippingInfo) : Bool :=
  if !validateForm si then false else true

/-- The value produced by the JS lookup-with-default
`map[key] || key` on a plain object literal: either a string (an
own-property hit, or the `||` default when the lookup reached
`undefined`), or a member inherited from `Object.prototype` — a plain
object literal's property read follows the prototype chain, and the
inherited members (methods such as `toString`, plus the `__proto__`
accessor yielding `Object.prototype`) are truthy non-string values that
`||` passes through. -/
inductive JSLookup where
  | strVal (s : String)
  | protoVal (name : String)
  deriving DecidableEq, Repr

/-- The property names a plain object literal inherits from
`Object.prototype`: the standard methods, the `__proto__` accessor, and
the Annex-B getter/setter methods. Every one of them reads as a truthy
non-string value. -/
def objectProtoMembers : List String :=
  ["constructor", "hasOwnProperty", "isPrototypeOf", "propertyIsEnumerable",
   "toLocaleString", "toString", "valueOf", "__proto__",
   "__defineGetter__", "__defineSetter__", "__lookupGetter__", "__lookupSetter__"]

/-- `getProductDisplayName` (src/lib/api.ts lines 455-464):
`categoryMap[category] || category`. An own property of the record
literal wins; otherwise the lookup continues up the prototype chain, so
the name of an inherited `Object.prototype` member yields that truthy
non-string member; only a lookup that reaches `undefined` falls through
`||` to the input string. -/
def getProductDisplayName (category : String) : JSLookup :=
  if category = "E-Bike" then JSLookup.strVal "Electric Bicycles"
  else if category = "E-Trike" then JSLookup.strVal "Electric Tricycles"
  else if category = "E-Motorcycle" then JSLookup.strVal "Electric Motorcycles"
  else if category = "E-Dump" then JSLookup.strVal "Electric Dump Trucks"
  else if category = "E-Scooter" then JSLookup.strVal "Electric Scooters"
  else if category ∈ objectProtoMembers then JSLookup.protoVal category
  else JSLookup.strVal category

/-- `getCategoryFromDisplayName` (src/lib/api.ts lines 466-475):
`displayMap[displayName] || displayName`, with the same prototype-chain
behaviour as `getProductDisplayName`. -/
def getCategoryFromDisplayName (displayName : String) : JSLookup :=
  if displayName = "Electric Bicycles" then JSLookup.strVal "E-Bike"
  else if displayName = "Electric Tricycles" then JSLookup.strVal "E-Trike"
  else if displayName = "Electric Motorcycles" then JSLookup.strVal "E-Motorcycle"
  else if displayName = "Electric Dump Trucks" then JSLookup.strVal "E-Dump"
  else if displayName = "Electric Scooters" then JSLookup.strVal "E-Scooter"
  else if displayName ∈ objectProtoMembers then JSLookup.protoVal displayName
  else JSLookup.strVal displayName

example : validateForm ⟨"Juan", "Dela Cruz", "juan@example.com", "09123456789",
    "1 Main St", "Manila", "NCR", "1000"⟩ = true := by with_unfolding_all decide
example : validateForm ⟨"Juan", "Dela Cruz", "juan@example.com", "9123456789",
    "1 Main St", "Manila", "NCR", "1000"⟩ = false := by with_unfolding_all decide
example : validateForm ⟨"Juan", "Dela Cruz", "juan@example.com", "0912345678",
    "1 Main St", "Manila", "NCR", "1000"⟩ = false := by with_unfolding_all decide

/-! ## Helper lemmas -/

theorem safeNumber_ne_nan (v : JSVal) : safeNumber v ≠ JSNum.nan := by
  cases v <;> simp [safeNumber, jsToNumber] <;> split <;> simp_all

theorem clearLoop_attempts_le (oracle : ℕ → ClearOutcome) (a r : ℕ) :
    (clearLoop oracle a r).2 ≤ a + r := by
  induction r generalizing a with
  | zero => simp [clearLoop]
  | succ r ih =>
    rcases h : oracle a with _ | _ | _
    · simp only [clearLoop, h]
      omega
    · simp only [clearLoop, h]
      have := ih (a + 1)
      omega
    · simp only [clearLoop, h]
      have := ih (a + 1)
      omega

theorem clearLoop_first_success (oracle : ℕ → ClearOutcome) (a r k : ℕ)
    (hk : k < r) (hs : oracle (a + k) = ClearOutcome.success)
    (hprev : ∀ j, j < k → oracle (a + j) ≠ ClearOutcome.success) :
    clearLoop oracle a r = (Except.ok true, a + k + 1) := by
  induction r generalizing a k with
  | zero => omega
  | succ r ih =>
    rcases h : oracle a with _ | _ | _
    · have hk0 : k = 0 := by
        by_contra hne
        exact hprev 0 (by omega) (by simpa using h)
      subst hk0
      simp [clearLoop, h]
    · have hk0 : k ≠ 0 := by
        intro he; subst he; simp at hs; exact absurd hs (by simp [h])
      have step := ih (a + 1) (k - 1) (by omega)
        (by rw [show a + 1 + (k - 1) = a + k by omega]; exact hs)
        (by intro j hj
            have := hprev (j + 1) (by omega)
            rwa [show a + (j + 1) = a + 1 + j by omega] at this)
      simp only [clearLoop, h]
      rw [step]
      congr 1
      omega
    · have hk0 : k ≠ 0 := by
        intro he; subst he; simp at hs; exact absurd hs (by simp [h])
      have step := ih (a + 1) (k - 1) (by omega)
        (by rw [show a + 1 + (k - 1) = a + k by omega]; exact hs)
        (by intro j hj
            have := hprev (j + 1) (by omega)
            rwa [show a + (j + 1) = a + 1 + j by omega] at this)
      simp only [clearLoop, h]
      rw [step]
      congr 1
      omega

theorem clearLoop_all_fail (oracle : ℕ → ClearOutcome) (a r : ℕ)
    (h : ∀ j, j < r → oracle (a + j) ≠ ClearOutcome.success) :
    clearLoop oracle a r = (Except.error (), a + r) := by
  induction r generalizing a with
  | zero => simp [clearLoop]
  | succ r ih =>
    have hshift : ∀ j, j < r → oracle (a + 1 + j) ≠ ClearOutcome.success := by
      intro j hj
      have := h (j + 1) (by omega)
      rwa [show a + (j + 1) = a + 1 + j by omega] at this
    rcases ho : oracle a with _ | _ | _
    · exact absurd (by simpa using ho) (h 0 (by omega))
    · simp only [clearLoop, ho]
      rw [ih (a + 1) hshift]
      congr 1
      omega
    · simp only [clearLoop, ho]
      rw [ih (a + 1) hshift]
      congr 1
      omega

/-! ## Claims -/

/-- C3 — for every behaviour of the underlying cart-clear operation
(a sequence of attempt outcomes), `clearCartAfterCheckout` resolves to a
boolean: it makes at most 3 attempts, resolves `true` right after the
first successful attempt (making no further attempts), and resolves
`false` after all 3 attempts have failed. -/
theorem claim_C3 (oracle : ℕ → ClearOutcome) :
    (clearCartAfterCheckout oracle).2 ≤ 3 ∧
    (∀ k, k < 3 → oracle k = ClearOutcome.success →
        (∀ j, j < k → oracle j ≠ ClearOutcome.success) →
        clearCartAfterCheckout oracle = (true, k + 1)) ∧
    ((∀ j, j < 3 → oracle j ≠ ClearOutcome.success) →
        clearCartAfterCheckout oracle = (false, 3)) := by
  refine ⟨?_, ?_, ?_⟩
  · have := clearLoop_attempts_le oracle 0 3
    simpa [clearCartAfterCheckout] using this
  · intro k hk hs hprev
    have := clearLoop_first_success oracle 0 3 k hk (by simpa using hs)
      (by intro j hj; simpa using hprev j hj)
    simp [clearCartAfterCheckout, this]
  · intro hall
    have := clearLoop_all_fail oracle 0 3 (by intro j hj; simpa using hall j hj)
    simp [clearCartAfterCheckout, this]

/-- Witness for C3: with an always-throwing clear operation the wrapper
returns `false` after 3 attempts; with a success at the second attempt
it returns `true` after exactly 2 attempts. -/
theorem claim_C3_witness :
    clearCartAfterCheckout (fun _ => ClearOutcome.threw) = (false, 3) ∧
    clearCartAfterCheckout
      (fun n => if n = 1 then ClearOutcome.success else ClearOutcome.failure) = (true, 2) := by
  constructor
  · exact (claim_C3 (fun _ => ClearOutcome.threw)).2.2 (by intro j hj; simp)
  · exact (claim_C3 _).2.1 1 (by omega) (by simp) (by intro j hj; interval_cases j; simp)

/-- C5 — with no auth token present, `getCart` resolves to the empty
list, and `updateCartQuantity`, `removeFromCart` and `clearCart` each
resolve to `false` rather than rejecting; in all four cases no network
request is made (second component `false`), whatever the network would
have answered. -/
theorem claim_C5 (f1 f2 f3 : Except Unit CartRespM) (f4 : Except Unit ClearFetchM) :
    getCart none f1 = ([], false) ∧
    updateCartQuantity none f2 = (false, false) ∧
    removeFromCart none f3 = (false, false) ∧
    clearCart none f4 = (false, false) :=
  ⟨rfl, rfl, rfl, rfl⟩

/-- C4 (amended) — a GET to the order proxy with the authorization
header absent, or present but empty (the guard is the JS-falsy test
`!authHeader`), yields 401 with the structured failure body and no
backend request; a non-empty header is forwarded and the backend's
status and body are relayed unchanged. -/
theorem claim_C4 (backend : String → Except Unit (ℕ × Json)) :
    ordersGET none backend = (401, authRequiredBody, false) ∧
    (∀ h, h ≠ "" → ∀ st body, backend h = Except.ok (st, body) →
      ordersGET (some h) backend = (st, body, true)) := by
  refine ⟨rfl, ?_⟩
  intro h hne st body hb
  simp [ordersGET, hne, hb]

/-- Witness for C4: a concrete non-empty header is forwarded and the
backend's 200 response is relayed. -/
theorem claim_C4_witness :
    ordersGET (some "Bearer tok") (fun _ => Except.ok (200, Json.jnull)) =
      (200, Json.jnull, true) :=
  (claim_C4 (fun _ => Except.ok (200, Json.jnull))).2 "Bearer tok" (by decide) 200 Json.jnull rfl

/-- Counterexample for C4 as stated: an authorization header that is
present but empty is answered with 401 and no backend request, not with
the backend's relayed 200 status. -/
theorem claim_C4_cex :
    ordersGET (some "") (fun _ => Except.ok (200, Json.jnull)) =
      (401, authRequiredBody, false) ∧ (401 : ℕ) ≠ 200 :=
  ⟨rfl, by decide⟩

/-- C10 (amended) — the five canonical category codes and display names
round-trip through `getProductDisplayName` and
`getCategoryFromDisplayName` in both directions (each direction maps to
a string on which the other map returns the original string); and a
string that is in neither mapping *and does not name an inherited
`Object.prototype` member* is returned unchanged by both functions. On
a prototype-member name such as `"toString"` the record lookup finds
the inherited truthy member instead, so the input is not returned
unchanged there. -/
theorem claim_C10 :
    (∀ c ∈ (["E-Bike", "E-Trike", "E-Scooter", "E-Motorcycle", "E-Dump"] : List String),
      ∃ d, getProductDisplayName c = JSLookup.strVal d ∧
        getCategoryFromDisplayName d = JSLookup.strVal c) ∧
    (∀ d ∈ (["Electric Bicycles", "Electric Tricycles", "Electric Scooters",
        "Electric Motorcycles", "Electric Dump Trucks"] : List String),
      ∃ c, getCategoryFromDisplayName d = JSLookup.strVal c ∧
        getProductDisplayName c = JSLookup.strVal d) ∧
    (∀ s : String,
      s ∉ (["E-Bike", "E-Trike", "E-Scooter", "E-Motorcycle", "E-Dump"] : List String) →
      s ∉ (["Electric Bicycles", "Electric Tricycles", "Electric Scooters",
        "Electric Motorcycles", "Electric Dump Trucks"] : List String) →
      s ∉ objectProtoMembers →
      getProductDisplayName s = JSLookup.strVal s ∧
      getCategoryFromDisplayName s = JSLookup.strVal s) := by
  refine ⟨?_, ?_, ?_⟩
  · intro c hc
    fin_cases hc
    · exact ⟨"Electric Bicycles", by decide, by decide⟩
    · exact ⟨"Electric Tricycles", by decide, by decide⟩
    · exact ⟨"Electric Scooters", by decide, by decide⟩
    · exact ⟨"Electric Motorcycles", by decide, by decide⟩
    · exact ⟨"Electric Dump Trucks", by decide, by decide⟩
  · intro d hd
    fin_cases hd
    · exact ⟨"E-Bike", by decide, by decide⟩
    · exact ⟨"E-Trike", by decide, by decide⟩
    · exact ⟨"E-Scooter", by decide, by decide⟩
    · exact ⟨"E-Motorcycle", by decide, by decide⟩
    · exact ⟨"E-Dump", by decide, by decide⟩
  · intro s h1 h2 h3
    simp only [List.mem_cons, List.not_mem_nil, or_false, not_or] at h1 h2
    obtain ⟨n1, n2, n3, n4, n5⟩ := h1
    obtain ⟨m1, m2, m3, m4, m5⟩ := h2
    constructor
    · simp [getProductDisplayName, n1, n2, n3, n4, n5, h3]
    · simp [getCategoryFromDisplayName, m1, m2, m3, m4, m5, h3]

/-- Witness for C10: the round-trip at the concrete code `"E-Bike"`,
and a string in neither mapping and not a prototype-member name is
returned unchanged by both functions. -/
theorem claim_C10_witness :
    (∃ d, getProductDisplayName "E-Bike" = JSLookup.strVal d ∧
      getCategoryFromDisplayName d = JSLookup.strVal "E-Bike") ∧
    getProductDisplayName "Hello" = JSLookup.strVal "Hello" ∧
    getCategoryFromDisplayName "Hello" = JSLookup.strVal "Hello" :=
  ⟨claim_C10.1 "E-Bike" (by decide),
   (claim_C10.2.2 "Hello" (by decide) (by decide) (by decide)).1,
   (claim_C10.2.2 "Hello" (by decide) (by decide) (by decide)).2⟩

/-- Counterexample for C10 as stated: `"toString"` is in neither
mapping, yet `categoryMap["toString"]` finds the inherited truthy
`Object.prototype.toString`, so `getProductDisplayName` returns that
member rather than its input unchanged. -/
theorem claim_C10_cex :
    getProductDisplayName "toString" = JSLookup.protoVal "toString" ∧
    JSLookup.protoVal "toString" ≠ JSLookup.strVal "toString" :=
  ⟨by decide, by decide⟩

theorem digit_not_ws {c : Char} (h0 : '0' ≤ c) (h9 : c ≤ '9') : isJsWsChar c = false := by
  simp only [isJsWsChar, Bool.or_eq_false_iff, beq_eq_false_iff_ne, ne_eq]
  and_intros <;> (rintro rfl; revert h0; decide)

theorem phone_not_blank {s : String} (h : phoneRegexTest s = true) : isBlank s = false := by
  simp only [phoneRegexTest, Bool.and_eq_true, beq_iff_eq, List.all_eq_true,
    decide_eq_true_eq] at h
  obtain ⟨hlen, hdig⟩ := h
  cases hl : s.toList with
  | nil => rw [hl] at hlen; simp at hlen
  | cons c t =>
    have hc := hdig c (by rw [hl]; exact List.mem_cons_self c t)
    have hws : isJsWsChar c = false := digit_not_ws hc.1 hc.2
    unfold isBlank
    rw [hl, List.all_cons, hws, Bool.false_and]

set_option maxHeartbeats 1600000 in
theorem validateForm_true_phone {si : ShippingInfo} (h : validateForm si = true) :
    phoneRegexTest si.phone = true ∧ phoneStarts09 si.phone = true := by
  unfold validateForm at h
  repeat' split at h
  all_goals simp_all

theorem validateForm_true_of (si : ShippingInfo)
    (h1 : isBlank si.firstName = false) (h2 : isBlank si.lastName = false)
    (h3 : isBlank si.email = false) (h4 : isBlank si.address = false)
    (h5 : isBlank si.city = false) (h6 : isBlank si.province = false)
    (h7 : isBlank si.zipCode = false) (hemail : emailRegexTest si.email = true)
    (hp : phoneRegexTest si.phone = true) (hs : phoneStarts09 si.phone = true) :
    validateForm si = true := by
  have hpb : isBlank si.phone = false := phone_not_blank hp
  simp [validateForm, h1, h2, h3, h4, h5, h6, h7, hpb, hemail, hp, hs]

/-- C9 — provided the other shipping checks pass (non-blank fields,
valid email), checkout validation accepts the phone field exactly when
it is 11 ASCII digits starting with "09"; concretely `"09123456789"`
passes while `"9123456789"` and `"0912345678"` fail; and a validation
failure blocks submission (the order request is not sent). -/
theorem claim_C9 :
    (∀ si : ShippingInfo,
      isBlank si.firstName = false → isBlank si.lastName = false →
      isBlank si.email = false → isBlank si.address = false →
      isBlank si.city = false → isBlank si.province = false →
      isBlank si.zipCode = false → emailRegexTest si.email = true →
      (validateForm si = true ↔
        phoneRegexTest si.phone = true ∧ phoneStarts09 si.phone = true)) ∧
    validateForm ⟨"Juan", "Dela Cruz", "juan@example.com", "09123456789",
      "1 Main St", "Manila", "NCR", "1000"⟩ = true ∧
    validateForm ⟨"Juan", "Dela Cruz", "juan@example.com", "9123456789",
      "1 Main St", "Manila", "NCR", "1000"⟩ = false ∧
    validateForm ⟨"Juan", "Dela Cruz", "juan@example.com", "0912345678",
      "1 Main St", "Manila", "NCR", "1000"⟩ = false ∧
    (∀ si : ShippingInfo, validateForm si = false → handleSubmitSends si = false) := by
  refine ⟨?_, by with_unfolding_all decide, by with_unfolding_all decide,
    by with_unfolding_all decide, ?_⟩
  · intro si h1 h2 h3 h4 h5 h6 h7 hemail
    constructor
    · exact validateForm_true_phone
    · intro hp
      exact validateForm_true_of si h1 h2 h3 h4 h5 h6 h7 hemail hp.1 hp.2
  · intro si h
    simp [handleSubmitSends, h]

/-- Witness for C9: the phone equivalence applied at the concrete valid
form, and the submission blocker applied at the 10-digit form. -/
theorem claim_C9_witness :
    (phoneRegexTest "09123456789" = true ∧ phoneStarts09 "09123456789" = true) ∧
    handleSubmitSends ⟨"Juan", "Dela Cruz", "juan@example.com", "0912345678",
      "1 Main St", "Manila", "NCR", "1000"⟩ = false :=
  ⟨(claim_C9.1 ⟨"Juan", "Dela Cruz", "juan@example.com", "09123456789",
      "1 Main St", "Manila", "NCR", "1000"⟩
      (by with_unfolding_all decide) (by with_unfolding_all decide)
      (by with_unfolding_all decide) (by with_unfolding_all decide)
      (by with_unfolding_all decide) (by with_unfolding_all decide)
      (by with_unfolding_all decide) (by with_unfolding_all decide)).mp
      (by with_unfolding_all decide),
   claim_C9.2.2.2.2 _ (by with_unfolding_all decide)⟩

theorem jget_some_is_obj {d : Json} {k : String} {v : Json} (h : jget d k = some v) :
    ∃ fs, d = Json.jobj fs := by
  cases d <;> first
  | exact ⟨_, rfl⟩
  | simp [jget] at h

/-- C8 (amended) — `getProducts` normalization: a bare array is returned
as-is; an envelope with truthy `success` and array `data` yields that
array; an envelope with truthy `success` and a truthy non-array `data`
yields the one-element list wrapping it; any other non-null,
non-array response falls back to the first *truthy* of
`data.data`, `data`, `[]` (the source uses `||`, not the nullish
`??` the spec describes). -/
theorem claim_C8 :
    (∀ xs, getProductsNormalize (Json.jarr xs) = Except.ok (Json.jarr xs)) ∧
    (∀ d xs, optTruthy (jget d "success") = true →
      jget d "data" = some (Json.jarr xs) →
      getProductsNormalize d = Except.ok (Json.jarr xs)) ∧
    (∀ d v, optTruthy (jget d "success") = true →
      jget d "data" = some v → jtruthy v = true → (∀ ys, v ≠ Json.jarr ys) →
      getProductsNormalize d = Except.ok (Json.jarr [v])) ∧
    (∀ d, d ≠ Json.jnull → isJArr d = false →
      (optTruthy (jget d "success") && optTruthy (jget d "data")) = false →
      getProductsNormalize d = Except.ok (orFallback d)) := by
  refine ⟨fun xs => rfl, ?_, ?_, ?_⟩
  · intro d xs hsucc hdata
    obtain ⟨fs, rfl⟩ := jget_some_is_obj hdata
    have hcond : (optTruthy (jget (Json.jobj fs) "success") &&
        optTruthy (jget (Json.jobj fs) "data")) = true := by
      rw [hsucc, hdata]; rfl
    simp [getProductsNormalize, hcond, hdata]
    intro himp
    exact absurd (himp hsucc) (by simp [optTruthy, jtruthy])
  · intro d v hsucc hdata htruthy hnotarr
    obtain ⟨fs, rfl⟩ := jget_some_is_obj hdata
    have hcond : (optTruthy (jget (Json.jobj fs) "success") &&
        optTruthy (jget (Json.jobj fs) "data")) = true := by
      rw [hsucc, hdata]
      simpa [optTruthy] using htruthy
    cases v with
    | jarr ys => exact absurd rfl (hnotarr ys)
    | jnull => exact absurd htruthy (by simp [jtruthy])
    | jbool b =>
      simp [getProductsNormalize, hcond, hdata]
      intro himp
      exact absurd (himp hsucc) (by simp [optTruthy, htruthy])
    | jnum q =>
      simp [getProductsNormalize, hcond, hdata]
      intro himp
      exact absurd (himp hsucc) (by simp [optTruthy, htruthy])
    | jstr s =>
      simp [getProductsNormalize, hcond, hdata]
      intro himp
      exact absurd (himp hsucc) (by simp [optTruthy, htruthy])
    | jobj gs =>
      simp [getProductsNormalize, hcond, hdata]
      intro himp
      exact absurd (himp hsucc) (by simp [optTruthy, htruthy])
  · intro d hnull hnotarr hcond
    cases d <;> simp_all [getProductsNormalize, isJArr]

/-- Witness for C8: the three success shapes and the fallback, applied
at concrete responses. -/
theorem claim_C8_witness :
    getProductsNormalize (Json.jobj [("success", Json.jbool true),
      ("data", Json.jarr [Json.jstr "p"])]) = Except.ok (Json.jarr [Json.jstr "p"]) ∧
    getProductsNormalize (Json.jobj [("success", Json.jbool true),
      ("data", Json.jobj [("id", Json.jnum 1)])]) =
      Except.ok (Json.jarr [Json.jobj [("id", Json.jnum 1)]]) ∧
    getProductsNormalize (Json.jobj [("ok", Json.jbool true)]) =
      Except.ok (orFallback (Json.jobj [("ok", Json.jbool true)])) :=
  ⟨claim_C8.2.1 _ _ rfl rfl,
   claim_C8.2.2.1 _ _ rfl rfl rfl (by intro ys; simp),
   claim_C8.2.2.2 _ (by simp) rfl rfl⟩

/-- Counterexample for C8 as stated: for the envelope `{data: 0}` the
nullish fallback `data.data ?? data ?? []` described by the spec would
yield `0`, but the code's `data.data || data || []` skips the falsy `0`
and yields the whole envelope object. -/
theorem claim_C8_cex :
    getProductsNormalize (Json.jobj [("data", Json.jnum 0)]) =
      Except.ok (Json.jobj [("data", Json.jnum 0)]) ∧
    specNullishFallback (Json.jobj [("data", Json.jnum 0)]) = Json.jnum 0 ∧
    Json.jobj [("data", Json.jnum 0)] ≠ Json.jnum 0 := by
  refine ⟨?_, rfl, by simp⟩
  simp [getProductsNormalize, jget, lookupField, optTruthy, jtruthy, orFallback]

theorem jmax0_of_nonneg {x : JSNum} (h : JSNum.jle (JSNum.finite 0) x = true) :
    JSNum.jmax (JSNum.finite 0) x = x := by
  cases x with
  | finite q =>
    have hq : (0 : ℚ) ≤ q := by simpa using h
    simp only [JSNum.jmax_finite_finite]
    split
    · rfl
    · next hlt => rw [le_antisymm (not_lt.mp hlt) hq]
  | nan => simp [JSNum.jle] at h
  | posInf => rfl
  | negInf => simp [JSNum.jle] at h

theorem tax_nonneg {x : JSNum} (h : JSNum.jle (JSNum.finite 0) x = true) :
    JSNum.jle (JSNum.finite 0) (x * JSNum.finite (8 / 100)) = true := by
  cases x with
  | finite q =>
    have hq : (0 : ℚ) ≤ q := by simpa using h
    have : (0 : ℚ) ≤ q * (8 / 100) := mul_nonneg hq (by norm_num)
    simpa using this
  | nan => simp [JSNum.jle] at h
  | posInf =>
    show JSNum.jle (JSNum.finite 0) (JSNum.jmul JSNum.posInf (JSNum.finite (8 / 100))) = true
    norm_num [JSNum.jmul, JSNum.jle]
  | negInf => simp [JSNum.jle] at h

theorem jadd_nonneg {x y : JSNum} (hx : JSNum.jle (JSNum.finite 0) x = true)
    (hy : JSNum.jle (JSNum.finite 0) y = true) :
    JSNum.jle (JSNum.finite 0) (x + y) = true := by
  cases x with
  | nan => simp [JSNum.jle] at hx
  | negInf => simp [JSNum.jle] at hx
  | posInf =>
    cases y with
    | nan => simp [JSNum.jle] at hy
    | negInf => simp [JSNum.jle] at hy
    | posInf => rfl
    | finite b => rfl
  | finite a =>
    cases y with
    | nan => simp [JSNum.jle] at hy
    | negInf => simp [JSNum.jle] at hy
    | posInf => rfl
    | finite b =>
      have ha : (0 : ℚ) ≤ a := by simpa using hx
      have hb : (0 : ℚ) ≤ b := by simpa using hy
      have : (0 : ℚ) ≤ a + b := add_nonneg ha hb
      simpa using this

theorem shipping_if_nonneg (x : JSNum) :
    JSNum.jle (JSNum.finite 0)
      (if JSNum.jlt (JSNum.finite 50000) x then JSNum.finite 0 else JSNum.finite 500) = true := by
  split <;> norm_num

theorem one_le_jmax_one {x : JSNum} (hx : x ≠ JSNum.nan) :
    JSNum.jle (JSNum.finite 1) (JSNum.jmax (JSNum.finite 1) x) = true := by
  cases x with
  | nan => exact absurd rfl hx
  | posInf => rfl
  | negInf => simp [JSNum.jmax, JSNum.jlt]
  | finite q =>
    simp only [JSNum.jmax_finite_finite]
    split
    · next hlt => simp [le_of_lt hlt]
    · norm_num

/-- C2 (amended) — `safeNumber` never returns `NaN`: it maps `null`,
`undefined`, `NaN` and unparseable strings to 0 and otherwise passes the
coerced number through — including the infinities, so the result is not
always finite. The concrete mappings `"12.5"→12.5`, `null→0`, `NaN→0`,
`-3→-3` hold (negative inputs are not rejected). -/
theorem claim_C2 :
    (∀ v : JSVal, safeNumber v ≠ JSNum.nan) ∧
    safeNumber (JSVal.str "12.5") = JSNum.finite (25 / 2) ∧
    safeNumber JSVal.null = JSNum.finite 0 ∧
    safeNumber (JSVal.num JSNum.nan) = JSNum.finite 0 ∧
    safeNumber (JSVal.num (JSNum.finite (-3))) = JSNum.finite (-3) ∧
    safeNumber (JSVal.str "unparseable") = JSNum.finite 0 :=
  ⟨safeNumber_ne_nan, by with_unfolding_all decide, rfl, rfl, rfl,
   by with_unfolding_all decide⟩

/-- Counterexample for C2 as stated: `safeNumber(Infinity)` returns
`Infinity`, which is not a finite number — the `isNaN` guard only
replaces `NaN`. -/
theorem claim_C2_cex :
    safeNumber (JSVal.num JSNum.posInf) = JSNum.posInf ∧
    JSNum.isFinite JSNum.posInf = false :=
  ⟨rfl, rfl⟩

/-- C6 (amended) — every item resolved by `getCart` is the normalization
of a backend item, and the normalization satisfies: price is the
`safeNumber`-normalized backend price (not necessarily finite: an
infinite backend price passes through), quantity is
`Math.max(1, ...)` and hence at least 1, and the total equals
price × quantity exactly when the backend total normalizes to 0,
otherwise it is the normalized backend total. -/
theorem claim_C6 :
    (∀ (tok : Option String) (fr : Except Unit CartRespM) (it : CItem),
      it ∈ (getCart tok fr).1 → ∃ r, it = normalizeCartItem r) ∧
    (∀ r : CItem,
      (normalizeCartItem r).price = JSVal.num (safeNumber r.price) ∧
      (normalizeCartItem r).quantity =
        JSVal.num (JSNum.jmax (JSNum.finite 1) (safeNumber r.quantity)) ∧
      JSNum.jle (JSNum.finite 1) (JSNum.jmax (JSNum.finite 1) (safeNumber r.quantity)) = true ∧
      (safeNumber r.total = JSNum.finite 0 →
        (normalizeCartItem r).total =
          JSVal.num (safeNumber r.price * JSNum.jmax (JSNum.finite 1) (safeNumber r.quantity))) ∧
      (safeNumber r.total ≠ JSNum.finite 0 →
        (normalizeCartItem r).total = JSVal.num (safeNumber r.total))) := by
  constructor
  · intro tok fr it hmem
    by_cases htok : jsStrFalsy tok = true
    · simp [getCart, htok] at hmem
    · cases fr with
      | error e => simp [getCart, htok] at hmem
      | ok resp =>
        by_cases hs : resp.success = true
        · cases hd : resp.data with
          | none => simp [getCart, htok, hs, hd] at hmem
          | some items =>
            simp [getCart, htok, hs, hd, List.mem_map] at hmem
            rcases hmem with ⟨r, _, hr⟩
            exact ⟨r, hr.symm⟩
        · simp [getCart, htok, hs] at hmem
  · intro r
    refine ⟨rfl, rfl, one_le_jmax_one (safeNumber_ne_nan r.quantity), ?_, ?_⟩
    · intro h
      simp [normalizeCartItem, h, jsOrNum, JSNum.jtruthyNum]
    · intro h
      have hnn := safeNumber_ne_nan r.total
      cases hx : safeNumber r.total with
      | nan => exact absurd hx hnn
      | finite q =>
        have hq : ¬(q = 0) := by rintro rfl; exact h hx
        simp [normalizeCartItem, hx, jsOrNum, JSNum.jtruthyNum, hq]
      | posInf => simp [normalizeCartItem, hx, jsOrNum, JSNum.jtruthyNum]
      | negInf => simp [normalizeCartItem, hx, jsOrNum, JSNum.jtruthyNum]

/-- Witness for C6: membership applied to a one-item authenticated cart
fetch, and the two total cases at concrete items. -/
theorem claim_C6_witness :
    (∃ r, normalizeCartItem
        ⟨JSVal.num (JSNum.finite 3), JSVal.num (JSNum.finite 2), JSVal.num (JSNum.finite 0)⟩ =
      normalizeCartItem r) ∧
    (normalizeCartItem ⟨JSVal.num (JSNum.finite 3), JSVal.num (JSNum.finite 2),
        JSVal.num (JSNum.finite 0)⟩).total =
      JSVal.num (safeNumber (JSVal.num (JSNum.finite 3)) *
        JSNum.jmax (JSNum.finite 1) (safeNumber (JSVal.num (JSNum.finite 2)))) ∧
    (normalizeCartItem ⟨JSVal.num (JSNum.finite 3), JSVal.num (JSNum.finite 2),
        JSVal.num (JSNum.finite 7)⟩).total =
      JSVal.num (safeNumber (JSVal.num (JSNum.finite 7))) :=
  ⟨claim_C6.1 (some "tok")
      (Except.ok ⟨true, some [⟨JSVal.num (JSNum.finite 3), JSVal.num (JSNum.finite 2),
        JSVal.num (JSNum.finite 0)⟩]⟩) _ (by simp [getCart, jsStrFalsy]),
   (claim_C6.2 _).2.2.2.1 rfl,
   (claim_C6.2 _).2.2.2.2 (by simp [safeNumber, jsToNumber])⟩

/-- Counterexample for C6 as stated: a backend price of `"Infinity"`
normalizes to `Infinity`, so the resolved item's price is the normalized
backend price but is not finite. -/
theorem claim_C6_cex :
    (normalizeCartItem ⟨JSVal.str "Infinity", JSVal.num (JSNum.finite 1),
        JSVal.num (JSNum.finite 0)⟩).price = JSVal.num JSNum.posInf ∧
    JSNum.isFinite JSNum.posInf = false := by
  with_unfolding_all decide

/-- C1 (amended) — for every cart list, `getCartSummary` returns
`itemCount` equal to the number of line items and `shipping` equal to
0 when the (unclamped) subtotal exceeds 50000 and 500 otherwise; and
whenever the computed subtotal is ≥ 0 — the `Math.max(0, _)` clamps are
then no-ops — the returned `subtotal` is exactly the sum over items of
(`item.total` if it normalizes to a nonzero number, else
price × quantity) and the returned `tax` is 8% of it. In particular the
one-item cart `{price:1000, quantity:2, total:0}` yields subtotal 2000,
tax 160, shipping 500, total 2660, and a cart whose subtotal is 60000
gets shipping 0. -/
theorem claim_C1 :
    (∀ items : List CItem,
      (getCartSummary items).itemCount = getCartItemsCount items ∧
      (getCartSummary items).shipping =
        (if JSNum.jlt (JSNum.finite 50000) (getCartSubtotal items) then JSNum.finite 0
         else JSNum.finite 500) ∧
      (JSNum.jle (JSNum.finite 0) (getCartSubtotal items) = true →
        (getCartSummary items).subtotal = getCartSubtotal items ∧
        (getCartSummary items).tax = getCartSubtotal items * JSNum.finite (8 / 100)) ∧
      (getCartSubtotal items = JSNum.finite 60000 →
        (getCartSummary items).shipping = JSNum.finite 0)) ∧
    getCartSummary [⟨JSVal.num (JSNum.finite 1000), JSVal.num (JSNum.finite 2),
        JSVal.num (JSNum.finite 0)⟩] =
      ⟨1, JSNum.finite 2000, JSNum.finite 160, JSNum.finite 500, JSNum.finite 2660⟩ := by
  constructor
  · intro items
    refine ⟨rfl, ?_, ?_, ?_⟩
    · exact jmax0_of_nonneg (shipping_if_nonneg (getCartSubtotal items))
    · intro h
      exact ⟨jmax0_of_nonneg h, jmax0_of_nonneg (tax_nonneg h)⟩
    · intro h60
      show JSNum.jmax (JSNum.finite 0)
          (if JSNum.jlt (JSNum.finite 50000) (getCartSubtotal items) then JSNum.finite 0
           else JSNum.finite 500) = JSNum.finite 0
      rw [h60]
      have h50 : (50000 : ℚ) < 60000 := by norm_num
      simp [JSNum.jmax, JSNum.jlt, h50]
  · simp [getCartSummary, getCartSubtotal, getCartTotal, getCartItemsCount, cartItemTotal,
      safeNumber, jsToNumber, JSNum.jmax, JSNum.jlt]
    all_goals norm_num
    all_goals simp

/-- Witness for C1: the nonnegative-subtotal clause at the concrete
2000-peso cart and the 60000-subtotal shipping waiver at a concrete
cart. -/
theorem claim_C1_witness :
    (getCartSummary [⟨JSVal.num (JSNum.finite 1000), JSVal.num (JSNum.finite 2),
        JSVal.num (JSNum.finite 0)⟩]).subtotal =
      getCartSubtotal [⟨JSVal.num (JSNum.finite 1000), JSVal.num (JSNum.finite 2),
        JSVal.num (JSNum.finite 0)⟩] ∧
    (getCartSummary [⟨JSVal.num (JSNum.finite 60000), JSVal.num (JSNum.finite 1),
        JSVal.num (JSNum.finite 0)⟩]).shipping = JSNum.finite 0 :=
  ⟨((claim_C1.1 _).2.2.1 (by
      simp [getCartSubtotal, getCartTotal, cartItemTotal, safeNumber, jsToNumber])).1,
   (claim_C1.1 _).2.2.2 (by
      simp [getCartSubtotal, getCartTotal, cartItemTotal, safeNumber, jsToNumber])⟩

/-- Counterexample for C1 as stated: for a cart whose only item carries
the (backend-supplied) total `-100`, the sum over items is `-100` but
the returned subtotal is the clamp `Math.max(0, -100) = 0`, so the
returned subtotal does not equal the sum. -/
theorem claim_C1_cex :
    (getCartSummary [⟨JSVal.num (JSNum.finite 0), JSVal.num (JSNum.finite 1),
        JSVal.num (JSNum.finite (-100))⟩]).subtotal ≠
      getCartSubtotal [⟨JSVal.num (JSNum.finite 0), JSVal.num (JSNum.finite 1),
        JSVal.num (JSNum.finite (-100))⟩] := by
  simp [getCartSummary, getCartSubtotal, getCartTotal, cartItemTotal,
    safeNumber, jsToNumber, JSNum.jmax, JSNum.jlt]

/-- C7 (amended) — whenever the computed (unclamped) subtotal is ≥ 0,
the summary's four amounts are all ≥ 0 and its total equals its subtotal
plus its tax plus its shipping. (For a negative subtotal the clamped
components need not sum to the clamped total.) -/
theorem claim_C7 (items : List CItem)
    (h : JSNum.jle (JSNum.finite 0) (getCartSubtotal items) = true) :
    (JSNum.jle (JSNum.finite 0) (getCartSummary items).subtotal = true ∧
     JSNum.jle (JSNum.finite 0) (getCartSummary items).tax = true ∧
     JSNum.jle (JSNum.finite 0) (getCartSummary items).shipping = true ∧
     JSNum.jle (JSNum.finite 0) (getCartSummary items).total = true) ∧
    (getCartSummary items).total =
      (getCartSummary items).subtotal + (getCartSummary items).tax +
        (getCartSummary items).shipping := by
  have hts : JSNum.jle (JSNum.finite 0)
      (getCartSubtotal items * JSNum.finite (8 / 100)) = true := tax_nonneg h
  have hss : JSNum.jle (JSNum.finite 0)
      (if JSNum.jlt (JSNum.finite 50000) (getCartSubtotal items) then JSNum.finite 0
       else JSNum.finite 500) = true := shipping_if_nonneg (getCartSubtotal items)
  have htot : JSNum.jle (JSNum.finite 0)
      (getCartSubtotal items + getCartSubtotal items * JSNum.finite (8 / 100) +
        (if JSNum.jlt (JSNum.finite 50000) (getCartSubtotal items) then JSNum.finite 0
         else JSNum.finite 500)) = true := jadd_nonneg (jadd_nonneg h hts) hss
  have e1 : (getCartSummary items).subtotal = getCartSubtotal items := jmax0_of_nonneg h
  have e2 : (getCartSummary items).tax =
      getCartSubtotal items * JSNum.finite (8 / 100) := jmax0_of_nonneg hts
  have e3 : (getCartSummary items).shipping =
      (if JSNum.jlt (JSNum.finite 50000) (getCartSubtotal items) then JSNum.finite 0
       else JSNum.finite 500) := jmax0_of_nonneg hss
  have e4 : (getCartSummary items).total =
      getCartSubtotal items + getCartSubtotal items * JSNum.finite (8 / 100) +
        (if JSNum.jlt (JSNum.finite 50000) (getCartSubtotal items) then JSNum.finite 0
         else JSNum.finite 500) := jmax0_of_nonneg htot
  refine ⟨⟨?_, ?_, ?_, ?_⟩, ?_⟩
  · rw [e1]; exact h
  · rw [e2]; exact hts
  · rw [e3]; exact hss
  · rw [e4]; exact htot
  · rw [e1, e2, e3, e4]

/-- Witness for C7: the additivity of the returned amounts at a concrete
nonnegative cart. -/
theorem claim_C7_witness :
    (getCartSummary [⟨JSVal.num (JSNum.finite 100), JSVal.num (JSNum.finite 3),
        JSVal.num (JSNum.finite 0)⟩]).total =
      (getCartSummary [⟨JSVal.num (JSNum.finite 100), JSVal.num (JSNum.finite 3),
          JSVal.num (JSNum.finite 0)⟩]).subtotal +
        (getCartSummary [⟨JSVal.num (JSNum.finite 100), JSVal.num (JSNum.finite 3),
            JSVal.num (JSNum.finite 0)⟩]).tax +
        (getCartSummary [⟨JSVal.num (JSNum.finite 100), JSVal.num (JSNum.finite 3),
            JSVal.num (JSNum.finite 0)⟩]).shipping :=
  (claim_C7 _ (by
    simp [getCartSubtotal, getCartTotal, cartItemTotal, safeNumber, jsToNumber])).2

/-- Counterexample for C7 as stated: for a cart whose only item carries
the total `-1000`, the returned amounts are subtotal 0, tax 0,
shipping 500 but total `Math.max(0, -580) = 0`, so the total is not the
sum of the returned components. -/
theorem claim_C7_cex :
    (getCartSummary [⟨JSVal.num (JSNum.finite 0), JSVal.num (JSNum.finite 1),
        JSVal.num (JSNum.finite (-1000))⟩]).total ≠
      (getCartSummary [⟨JSVal.num (JSNum.finite 0), JSVal.num (JSNum.finite 1),
          JSVal.num (JSNum.finite (-1000))⟩]).subtotal +
        (getCartSummary [⟨JSVal.num (JSNum.finite 0), JSVal.num (JSNum.finite 1),
            JSVal.num (JSNum.finite (-1000))⟩]).tax +
        (getCartSummary [⟨JSVal.num (JSNum.finite 0), JSVal.num (JSNum.finite 1),
            JSVal.num (JSNum.finite (-1000))⟩]).shipping := by
  simp [getCartSummary, getCartSubtotal, getCartTotal, cartItemTotal,
    safeNumber, jsToNumber, JSNum.jmax, JSNum.jlt]
  all_goals norm_num
  all_goals simp

end Ecom
